import Mathlib

/-!
Verification of the NBA fantasy roster optimizer (`src/app.py`).

The file shallowly embeds the pure core of the program: the valuation
helpers (`calculate_selling_price`, `get_player_history_avg`,
`get_win_probability`), the picks fetcher (`fetch_picks`), the schedule
mapper (`player_schedule`), the MILP constraint system built in the
optimization loop (`constraintsHold`), and the strategy-enumeration loop
(`runEnumeration` / `strategyEnumerator`).  Machine integers are `Nat`/`Int`,
Python floats arising from exact arithmetic are `ℚ`, fallible calls are
`Option`.
-/

/-- Global constant from `app.py` line 28. -/
def MAX_PLAYERS_PER_TEAM : Nat := 2

/-- Global constant from `app.py` line 29. -/
def TRANSFERS_ALLOWED : Nat := 2

/-- Global constant from `app.py` line 30. -/
def ROSTER_SIZE : Nat := 10

/-- `calculate_selling_price` (`app.py` lines 226-230): when selling at a
profit, a fee of `ceil(profit / 2)` is deducted; `(profit + 1) / 2` is the
ceiling of `profit / 2` in `Nat` division. -/
def calculate_selling_price (purchase_price now_cost : Nat) : Nat :=
  if now_cost ≤ purchase_price then now_cost
  else
    let profit := now_cost - purchase_price
    let fee := (profit + 1) / 2
    now_cost - fee

/-- **C1.** For all (natural-number) prices: if the current price `cp` is at
most the purchase price `pp` the sale value is `cp`; otherwise the sale value
is `cp - f` where `f = (cp - pp + 1) / 2` is exactly the integer ceiling of
`(cp - pp) / 2`, i.e. `cp - pp ≤ 2 * f` and `2 * f ≤ cp - pp + 1`. -/
theorem selling_price_spec (pp cp : Nat) :
    (cp ≤ pp → calculate_selling_price pp cp = cp) ∧
    (pp < cp →
      calculate_selling_price pp cp = cp - (cp - pp + 1) / 2 ∧
      cp - pp ≤ 2 * ((cp - pp + 1) / 2) ∧
      2 * ((cp - pp + 1) / 2) ≤ cp - pp + 1) := by
  constructor
  · intro h
    simp [calculate_selling_price, h]
  · intro h
    refine ⟨?_, ?_, ?_⟩
    · simp [calculate_selling_price, Nat.not_le.mpr h]
    · omega
    · omega

/-- Witness for C1 at the spec's own examples: pp=50, cp=57 gives 53 and
pp=50, cp=56 gives 53. -/
theorem selling_price_spec_witness :
    calculate_selling_price 50 57 = 53 ∧ calculate_selling_price 50 56 = 53 := by
  have h1 := ((selling_price_spec 50 57).2 (by decide)).1
  have h2 := ((selling_price_spec 50 56).2 (by decide)).1
  rw [h1, h2]
  constructor <;> decide

/-- One entry of `entry_history` as far as `fetch_picks` is concerned
(the `bank` field set by the default structure). -/
structure EntryHistory where
  bank : Int
deriving DecidableEq, Repr

/-- A picks payload as returned by the provider.  Each field is `Option`al:
`none` models the corresponding key being absent from the Python dict.
Pick entries themselves are irrelevant to `fetch_picks`, so a pick is
abstracted to its player id. -/
structure PicksPayload where
  picks : Option (List Nat)
  entry_history : Option EntryHistory
  active_chip : Option (Option String)
deriving DecidableEq, Repr

/-- Python truthiness of a fetch result: `False` for a failed request
(`none`) and for an empty dict (all modelled keys absent). -/
def dataTruthy (d : Option PicksPayload) : Bool :=
  match d with
  | none => false
  | some p => p.picks.isSome || p.entry_history.isSome || p.active_chip.isSome

/-- The default structure `fetch_picks` falls back to
(`app.py` line 222). -/
def defaultPicksData : PicksPayload :=
  { picks := some [], entry_history := some { bank := 0 }, active_chip := some none }

/-- `fetch_picks` (`app.py` lines 212-224).  `fetch` stands for
`fetch_json` applied to the picks URL for a given `(team_id, event_id)`;
`none` models a failed request. -/
def fetch_picks (fetch : Nat → Nat → Option PicksPayload) (team_id event_id : Nat) :
    PicksPayload :=
  let data0 := fetch team_id event_id
  -- if not data and event_id > 1: retry with event_id - 1
  let data := if !dataTruthy data0 && decide (1 < event_id) then
      fetch team_id (event_id - 1)
    else data0
  -- if not data or 'picks' not in data: return the default structure.
  -- A payload whose 'picks' key is present is truthy, so the two tests
  -- collapse to the single check below.
  match data with
  | none => defaultPicksData
  | some d => if d.picks.isSome then d else defaultPicksData

/-- A provider behaviour used to refute C10: event 5 answers with a payload
that has a `picks` key but no `entry_history` key. -/
def exFetchNoHistory : Nat → Nat → Option PicksPayload :=
  fun _ event_id =>
    if event_id = 5 then some { picks := some [], entry_history := none, active_chip := none }
    else none

/-- **C10, counterexample.** The claim says every result of `fetch_picks`
contains both the `picks` and the `entry_history` keys.  A truthy payload
containing `picks` is returned verbatim, so a payload lacking
`entry_history` is passed through: here the result has `picks` but no
`entry_history`. -/
theorem fetch_picks_missing_entry_history :
    (fetch_picks exFetchNoHistory 1 5).picks.isSome = true ∧
    (fetch_picks exFetchNoHistory 1 5).entry_history = none := by
  constructor <;> rfl

/-- **C10, amended.** `fetch_picks` is total; every result contains the
`picks` key; when the fetch for `event_id` yields no usable data and
`event_id > 1` it falls back to `event_id - 1`; and when no truthy payload
with a `picks` key is obtained at all it returns the default structure
`{picks: [], entry_history: {bank: 0}, active_chip: None}`.  A successfully
fetched payload containing `picks` is returned verbatim and need not
contain `entry_history`. -/
theorem fetch_picks_total_spec (fetch : Nat → Nat → Option PicksPayload)
    (team_id event_id : Nat) :
    (fetch_picks fetch team_id event_id).picks.isSome = true ∧
    (dataTruthy (fetch team_id event_id) = false → 1 < event_id →
      fetch_picks fetch team_id event_id =
        (match fetch team_id (event_id - 1) with
         | none => defaultPicksData
         | some d => if d.picks.isSome then d else defaultPicksData)) ∧
    (fetch team_id event_id = none → ¬ 1 < event_id →
      fetch_picks fetch team_id event_id = defaultPicksData) := by
  refine ⟨?_, ?_, ?_⟩
  · simp only [fetch_picks]
    split
    · rfl
    · split
      · assumption
      · rfl
  · intro hfalsy hgt
    unfold fetch_picks
    simp [hfalsy, hgt]
  · intro hnone hle
    unfold fetch_picks
    simp [hnone, hle, dataTruthy]

/-- Witness for C10 amended: a provider that always fails yields the
default structure, and its `picks` key is present. -/
theorem fetch_picks_total_spec_witness :
    (fetch_picks (fun _ _ => none) 1 1).picks.isSome = true ∧
    fetch_picks (fun _ _ => none) 1 1 = defaultPicksData := by
  refine ⟨(fetch_picks_total_spec (fun _ _ => none) 1 1).1, ?_⟩
  exact (fetch_picks_total_spec (fun _ _ => none) 1 1).2.2 rfl (by decide)


/-- One per-game history entry (`element-summary` history rows).  The
Python code compares ISO-8601 `kickoff_time` strings lexicographically,
which is chronological order; the timestamp is embedded as the pair of a
date ordinal (`kickoff_date`, the `[:10]` prefix) and a time-of-day
ordinal (`kickoff_frac`), ordered lexicographically. -/
structure Game where
  kickoff_date : Nat
  kickoff_frac : Nat
  minutes : Nat
  total_points : Int
deriving DecidableEq, Repr

/-- Lexicographic order on full kickoff timestamps: the order the Python
string comparison `x['kickoff_time'] < y['kickoff_time']` induces. -/
def kickoffLt (a b : Game) : Bool :=
  decide (a.kickoff_date < b.kickoff_date) ||
    (decide (a.kickoff_date = b.kickoff_date) && decide (a.kickoff_frac < b.kickoff_frac))

/-- Insert into a list already sorted by descending kickoff timestamp,
placing the new element before equal keys: together with `sortGamesDesc`
this is the stable descending sort performed by
`history.sort(key=..., reverse=True)` (`app.py` line 240). -/
def insertGameDesc (g : Game) : List Game → List Game
  | [] => [g]
  | h :: t => if kickoffLt g h then h :: insertGameDesc g t
              else g :: h :: t

/-- Stable sort of a game history by descending kickoff timestamp. -/
def sortGamesDesc : List Game → List Game
  | [] => []
  | g :: t => insertGameDesc g (sortGamesDesc t)

/-- The early-return test of `get_player_history_avg` (`app.py` lines
241-244): the history has at least two games and the two most recent both
record zero minutes. -/
def twoRecentZero : List Game → Bool
  | h0 :: h1 :: _ => h0.minutes == 0 && h1.minutes == 0
  | _ => false

/-- `get_player_history_avg` (`app.py` lines 232-249) on an already-fetched
history.  `today` is the date ordinal of the UTC cursor
(`h['kickoff_time'][:10] < today_str` becomes `kickoff_date < today`);
`data = none` models a failed fetch (`if not data: return 0.0`); the
result `none` models the Python `None` return (unavailability signal);
`some q` models the returned float average. -/
def get_player_history_avg (today : Nat) (data : Option (List Game)) : Option ℚ :=
  match data with
  | none => some 0
  | some history0 =>
    let history := sortGamesDesc (history0.filter (fun h => h.kickoff_date < today))
    if twoRecentZero history then none
    else
      let played_games := history.filter (fun g => 0 < g.total_points)
      let last_5 := played_games.take 5
      if last_5.isEmpty then some 0
      else some ((last_5.map (fun g => (g.total_points : ℚ))).sum / (last_5.length : ℚ))

/-- The projected score in the words of the claim (refinement reference):
drop games that are not completed before `today`, exclude games without
recorded participation, keep the most recent at most 5, and average their
`total_points`; 0 when no qualifying game exists. -/
def projectedScoreSpec (today : Nat) (history : List Game) : ℚ :=
  let completed := history.filter (fun h => h.kickoff_date < today)
  let participating := (sortGamesDesc completed).filter (fun g => 0 < g.total_points)
  let recent := participating.take 5
  if recent.isEmpty then 0
  else (recent.map (fun g => (g.total_points : ℚ))).sum / (recent.length : ℚ)

/-- History of a player whose two most recent completed games show zero
minutes, with an earlier game of 20 points. -/
def exHistInjured : List Game :=
  [ { kickoff_date := 3, kickoff_frac := 0, minutes := 0, total_points := 0 },
    { kickoff_date := 2, kickoff_frac := 0, minutes := 0, total_points := 0 },
    { kickoff_date := 1, kickoff_frac := 0, minutes := 30, total_points := 20 } ]

/-- History of a player with two qualifying games of 10 and 30 points. -/
def exHistActive : List Game :=
  [ { kickoff_date := 3, kickoff_frac := 0, minutes := 30, total_points := 10 },
    { kickoff_date := 2, kickoff_frac := 0, minutes := 0, total_points := 0 },
    { kickoff_date := 1, kickoff_frac := 0, minutes := 20, total_points := 30 } ]

/-- Date-ordinal cursor used by the concrete history examples. -/
def exToday : Nat := 5

/-- **C6, counterexample.** When the two most recent completed games both
show zero minutes, `get_player_history_avg` returns the unavailability
signal `None` instead of the mean the claim prescribes (here the mean over
the qualifying games is 20, but the function does not return it). -/
theorem history_avg_counterexample :
    get_player_history_avg exToday (some exHistInjured) = none ∧
    projectedScoreSpec exToday exHistInjured = 20 ∧
    get_player_history_avg exToday (some exHistInjured) ≠
      some (projectedScoreSpec exToday exHistInjured) := by
  have h1 : get_player_history_avg exToday (some exHistInjured) = none := by decide
  have h2 : projectedScoreSpec exToday exHistInjured = 20 := by
    norm_num [projectedScoreSpec, sortGamesDesc, insertGameDesc, kickoffLt,
      exHistInjured, exToday, List.filter]
  refine ⟨h1, h2, ?_⟩
  rw [h1]
  exact fun h => Option.noConfusion h

/-- **C6, amended.** Unless the two most recent completed games both show
zero minutes (in which case the function signals unavailability by
returning `none`), the projected score equals the arithmetic mean of
`total_points` over the most recent at-most-5 completed games with
positive `total_points`, games without participation being excluded before
the truncation to 5, and 0 when no qualifying game exists. -/
theorem history_avg_matches_mean (today : Nat) (history : List Game)
    (h : twoRecentZero (sortGamesDesc (history.filter
          (fun g => g.kickoff_date < today))) = false) :
    get_player_history_avg today (some history) =
      some (projectedScoreSpec today history) := by
  simp only [get_player_history_avg, projectedScoreSpec, h, Bool.false_eq_true,
    if_false]
  split <;> rfl

/-- Witness for C6 amended: a player with games of 10 and 30 points among
the last five qualifying games gets the mean 20. -/
theorem history_avg_matches_mean_witness :
    get_player_history_avg exToday (some exHistActive) =
      some (projectedScoreSpec exToday exHistActive) ∧
    projectedScoreSpec exToday exHistActive = 20 := by
  refine ⟨history_avg_matches_mean exToday exHistActive (by decide), ?_⟩
  norm_num [projectedScoreSpec, sortGamesDesc, insertGameDesc, kickoffLt,
    exHistActive, exToday, List.filter]

/-- A team record from the team catalog: id and season win/loss counts. -/
structure TeamRec where
  id : Nat
  win : Nat
  loss : Nat
deriving DecidableEq, Repr

/-- `get_win_probability` (`app.py` lines 262-274): each team's win ratio,
0.5 for a team with no record, normalized against the opponent; the
`try/except` fallback (a missing team row) yields 0.5, as does a zero
ratio sum. -/
def get_win_probability (team1_id team2_id : Nat) (teams : List TeamRec) : ℚ :=
  match teams.find? (fun t => t.id == team1_id), teams.find? (fun t => t.id == team2_id) with
  | some t1, some t2 =>
    let total1 := t1.win + t1.loss
    let rate1 : ℚ := if 0 < total1 then (t1.win : ℚ) / (total1 : ℚ) else 1 / 2
    let total2 := t2.win + t2.loss
    let rate2 : ℚ := if 0 < total2 then (t2.win : ℚ) / (total2 : ℚ) else 1 / 2
    if rate1 + rate2 = 0 then 1 / 2 else rate1 / (rate1 + rate2)
  | _, _ => 1 / 2

/-- A fixture row as used by the schedule-building loop: external event id
and the two team ids. -/
structure Fixture where
  event : Nat
  team_h : Nat
  team_a : Nat
deriving DecidableEq, Repr

/-- A candidate player as assembled into `players_data`
(`app.py` lines 804-815): id, effective cost, coarse position group,
owning-team id. -/
inductive PosGroup
  | backCourt
  | frontCourt
deriving DecidableEq, Repr

/-- See `PosGroup`. -/
structure Player where
  id : Nat
  cost : Nat
  pos : PosGroup
  team : Nat
deriving DecidableEq, Repr

/-- The Schedule/Probability Mapper (`app.py` lines 826-833): the entry of
`player_schedule[p][d]`.  `eventIdxOf` is `event_id_to_solver_idx` as a
partial map; a fixture of the player's team on solver day `d` writes the
probability 1.0, and no other entry is ever written, so a day without a
game has no entry (`none`). -/
def player_schedule (eventIdxOf : Nat → Option Nat) (fixtures : List Fixture)
    (p : Player) (d : Nat) : Option ℚ :=
  if fixtures.any (fun f =>
      decide (eventIdxOf f.event = some d) &&
        (decide (p.team = f.team_h) || decide (p.team = f.team_a))) then
    some 1
  else none

/-- Teams with records 10-2 and 2-10, for the C7 counterexample. -/
def exCupTeams : List TeamRec :=
  [ { id := 1, win := 10, loss := 2 }, { id := 2, win := 2, loss := 10 } ]

/-- A single bracket-round fixture between teams 1 and 2, event 7. -/
def exCupFixtures : List Fixture := [ { event := 7, team_h := 1, team_a := 2 } ]

/-- Solver-index map sending event 7 to day 0. -/
def exCupEventIdx : Nat → Option Nat := fun e => if e = 7 then some 0 else none

/-- A player of team 1 used in the C7 counterexample. -/
def exCupPlayer : Player := { id := 100, cost := 50, pos := PosGroup.backCourt, team := 1 }

/-- **C7, counterexample.** For the bracket fixture between teams with
records 10-2 and 2-10 the win-probability helper would derive 5/6, a value
in (0,1) — but the schedule mapper assigns participation probability 1.0
to this fixture like any other, so the claimed derived value is never
assigned. -/
theorem player_schedule_counterexample :
    player_schedule exCupEventIdx exCupFixtures exCupPlayer 0 = some 1 ∧
    get_win_probability 1 2 exCupTeams = 5 / 6 ∧
    (1 : ℚ) ≠ 5 / 6 := by
  refine ⟨by decide, ?_, by norm_num⟩
  have hf1 : exCupTeams.find? (fun t => t.id == 1) =
      some { id := 1, win := 10, loss := 2 } := rfl
  have hf2 : exCupTeams.find? (fun t => t.id == 2) =
      some { id := 2, win := 2, loss := 10 } := rfl
  unfold get_win_probability
  rw [hf1, hf2]
  norm_num

/-- **C7, amended.** The participation probability assigned by the
Schedule/Probability Mapper is 1.0 when the player's team has a fixture
mapped to future day `d` and absent (no entry) otherwise; no value in
(0,1) is ever assigned.  The win-probability helper `get_win_probability`
exists in the source but is not invoked by the mapper. -/
theorem player_schedule_spec (eventIdxOf : Nat → Option Nat)
    (fixtures : List Fixture) (p : Player) (d : Nat) :
    (player_schedule eventIdxOf fixtures p d = some 1 ∨
      player_schedule eventIdxOf fixtures p d = none) ∧
    (player_schedule eventIdxOf fixtures p d = some 1 ↔
      ∃ f ∈ fixtures, eventIdxOf f.event = some d ∧
        (p.team = f.team_h ∨ p.team = f.team_a)) := by
  constructor
  · unfold player_schedule
    split
    · exact Or.inl rfl
    · exact Or.inr rfl
  · unfold player_schedule
    split
    · rename_i hany
      simp only [List.any_eq_true, Bool.and_eq_true, Bool.or_eq_true, decide_eq_true_eq] at hany
      obtain ⟨f, hf, h1, h2⟩ := hany
      exact ⟨fun _ => ⟨f, hf, h1, h2⟩, fun _ => rfl⟩
    · rename_i hany
      simp only [List.any_eq_true, Bool.and_eq_true, Bool.or_eq_true, decide_eq_true_eq] at hany
      constructor
      · intro h
        exact absurd h (fun h => Option.noConfusion h)
      · intro ⟨f, hf, h1, h2⟩
        exact absurd ⟨f, hf, h1, h2⟩ hany

/-- Binary decision variable as a natural number. -/
def b2n (b : Bool) : Nat := if b then 1 else 0

/-- Binary decision variable as an integer. -/
def b2i (b : Bool) : Int := if b then 1 else 0

/-- A full variable assignment of the integer program: the binary variable
families `R_{pid}_{d}`, `T_{pid}_{d}`, `S_{pid}_{d}`, `C_{pid}_{d}`
(`app.py` lines 855-863), as functions of player id and solver day. -/
structure Assignment where
  roster : Nat → Nat → Bool
  transIn : Nat → Nat → Bool
  starter : Nat → Nat → Bool
  captain : Nat → Nat → Bool

/-- One gameweek of `weeks_schedule` as the model sees it: the gameweek
number and the ascending list of solver indices of its future days
(`gw_indices`, `app.py` line 919). -/
structure Week where
  gwNum : Nat
  dayIdxs : List Nat
deriving DecidableEq, Repr

/-- One pick of a past day's team, as consumed by the captain-used scan
(`app.py` lines 716-719). -/
structure PickEntry where
  element : Nat
  is_captain : Bool
  multiplier : Nat
deriving DecidableEq, Repr

/-- `captain_used_map[gw]` (`app.py` lines 698, 712-719): true when some
pick of some settled day of the week is a captain with multiplier > 1. -/
def captain_used_for_week (pastDays : List (List PickEntry)) : Bool :=
  pastDays.any (fun picks => picks.any (fun p => p.is_captain && decide (1 < p.multiplier)))

/-- `transfers_limit_map` (`app.py` lines 722-730): the first requested
week gets `max(0, TRANSFERS_ALLOWED - transfers_used_w1)`, later weeks get
`TRANSFERS_ALLOWED`. -/
def transfers_limit_map (weekIdx : Nat) (usedW1 : Nat) : Int :=
  if weekIdx = 0 then max 0 ((TRANSFERS_ALLOWED : Int) - (usedW1 : Int))
  else (TRANSFERS_ALLOWED : Int)

/-- `total_budget_safe` (`app.py` lines 735-740): roster liquidation value
plus bank minus the safety margin, overridden to 9999999 when the
unlimited-budget (All Star Card) option is active. -/
def total_budget_safe (liq bank margin : Nat) (allStar : Bool) : Int :=
  if allStar then 9999999 else (liq : Int) + (bank : Int) - (margin : Int)

/-- All inputs the optimization loop bakes into one model instance. -/
structure ModelInput where
  players : List Player
  numDays : Nat
  owned : List Nat
  liq : Nat
  bank : Nat
  margin : Nat
  allStar : Bool
  playWildcard : Bool
  forceWcDay1 : Bool
  simGameDay : Nat
  teamsList : List Nat
  sched : Nat → Nat → Bool
  weeks : List Week
  transfersUsedW1 : Nat
  pastPicks : Nat → List (List PickEntry)
  forcedDrop : List Nat
  forcedAdd : List Nat
  forcedKeep : List Nat
  prevSolutions : List (List (Nat × Nat))

/-- The ids of the candidate pool (`players_data`). -/
def playerIds (inp : ModelInput) : List Nat := inp.players.map Player.id

/-- `Σ_p roster[p,d]` over the candidate pool. -/
def dayRosterCount (inp : ModelInput) (a : Assignment) (d : Nat) : Nat :=
  (inp.players.map (fun p => b2n (a.roster p.id d))).sum

/-- `Σ_p roster[p,d] * cost[p]`. -/
def dayRosterCost (inp : ModelInput) (a : Assignment) (d : Nat) : Nat :=
  (inp.players.map (fun p => b2n (a.roster p.id d) * p.cost)).sum

/-- `Σ_{p in pos} roster[p,d]` for one coarse position group. -/
def dayPosCount (inp : ModelInput) (a : Assignment) (d : Nat) (pos : PosGroup) : Nat :=
  ((inp.players.filter (fun p => p.pos == pos)).map (fun p => b2n (a.roster p.id d))).sum

/-- `Σ_{p in team t} roster[p,d]`. -/
def dayTeamCount (inp : ModelInput) (a : Assignment) (d : Nat) (t : Nat) : Nat :=
  ((inp.players.filter (fun p => p.team == t)).map (fun p => b2n (a.roster p.id d))).sum

/-- The players holding a starter/captain variable on day `d`: those with
positive participation probability (`app.py` lines 860-863). -/
def schedPlayers (inp : ModelInput) (d : Nat) : List Player :=
  inp.players.filter (fun p => inp.sched p.id d)

/-- `Σ` of starter variables existing on day `d`. -/
def dayStarterCount (inp : ModelInput) (a : Assignment) (d : Nat) : Nat :=
  ((schedPlayers inp d).map (fun p => b2n (a.starter p.id d))).sum

/-- `Σ` of starter variables existing on day `d` within one position group. -/
def dayStarterPosCount (inp : ModelInput) (a : Assignment) (d : Nat) (pos : PosGroup) : Nat :=
  (((schedPlayers inp d).filter (fun p => p.pos == pos)).map
    (fun p => b2n (a.starter p.id d))).sum

/-- `gw_indices[0]` after the in-place ascending sort (`app.py` line 930):
the minimum of the nonempty index list. -/
def gwFirstIdx (idxs : List Nat) : Nat := idxs.foldr Nat.min (idxs.headD 0)

/-- The exempt-day test of the weekly transfer loop (`app.py` lines
932-954): in a wildcard first week the computed wildcard day is exempt; in
an All-Star first week the day at offset `sim_game_day - 1` is exempt. -/
def isExemptDay (inp : ModelInput) (weekIdx : Nat) (idxs : List Nat) (d : Nat) : Bool :=
  let isWildcardWeek := decide (weekIdx = 0) && inp.playWildcard
  let isAllStarDay1 := decide (weekIdx = 0) && inp.allStar
  let wcDayIdx := if inp.forceWcDay1 then gwFirstIdx idxs
                  else gwFirstIdx idxs + (inp.simGameDay - 1)
  (isWildcardWeek && decide (d = wcDayIdx)) ||
    (isAllStarDay1 && decide (d = gwFirstIdx idxs + (inp.simGameDay - 1)))

/-- `Σ` of transfer-in variables over all players and the non-exempt days
of a week (`week_transfers_vars`, `app.py` lines 922-957). -/
def weekTransferSum (inp : ModelInput) (a : Assignment) (weekIdx : Nat) (w : Week) : Int :=
  ((w.dayIdxs.filter (fun d => !isExemptDay inp weekIdx w.dayIdxs d)).map (fun d =>
    (inp.players.map (fun p => b2i (a.transIn p.id d))).sum)).sum

/-- `Σ` of the existing captain variables over all days of a week
(`week_captains`, `app.py` lines 964-967). -/
def weekCaptainSum (inp : ModelInput) (a : Assignment) (w : Week) : Nat :=
  (w.dayIdxs.map (fun d =>
    ((inp.players.filter (fun p => decide (d < inp.numDays) && inp.sched p.id d)).map
      (fun p => b2n (a.captain p.id d))).sum)).sum

/-- The no-repeat cut added for one previous solution (`app.py` lines
974-975): the rostered (player, day) pairs of that solution cannot all be
1 again. -/
def cutHolds (sol : List (Nat × Nat)) (roster : Nat → Nat → Bool) : Prop :=
  (sol.map (fun pd => b2i (roster pd.1 pd.2))).sum ≤ (sol.length : Int) - 1

/-- Transfer-continuity constraints (`app.py` lines 865-870):
`T[p,0] ≥ R[p,0] - owned[p]` and `T[p,d] ≥ R[p,d] - R[p,d-1]` for d ≥ 1. -/
def continuityOk (inp : ModelInput) (a : Assignment) : Prop :=
  ∀ p ∈ inp.players,
    (0 < inp.numDays →
      b2i (a.roster p.id 0) - (if p.id ∈ inp.owned then (1 : Int) else 0) ≤
        b2i (a.transIn p.id 0)) ∧
    (∀ d ∈ List.range inp.numDays, d ≠ 0 →
      b2i (a.roster p.id d) - b2i (a.roster p.id (d - 1)) ≤ b2i (a.transIn p.id d))

/-- Manual-override constraints (`app.py` lines 872-882): forced drops are
never rostered, forced adds are rostered on day 0, forced keeps of owned
players are rostered every day; each guarded by the variable's existence. -/
def forcedOk (inp : ModelInput) (a : Assignment) : Prop :=
  (∀ pid ∈ inp.forcedDrop, ∀ d ∈ List.range inp.numDays,
    pid ∈ playerIds inp → a.roster pid d = false) ∧
  (∀ pid ∈ inp.forcedAdd, 0 < inp.numDays →
    pid ∈ playerIds inp → a.roster pid 0 = true) ∧
  (∀ pid ∈ inp.forcedKeep, pid ∈ inp.owned → ∀ d ∈ List.range inp.numDays,
    pid ∈ playerIds inp → a.roster pid d = true)

/-- Per-day constraints (`app.py` lines 889-913). -/
def dayOk (inp : ModelInput) (a : Assignment) (d : Nat) : Prop :=
  dayRosterCount inp a d = ROSTER_SIZE ∧
  (dayRosterCost inp a d : Int) ≤ total_budget_safe inp.liq inp.bank inp.margin inp.allStar ∧
  dayPosCount inp a d PosGroup.backCourt = 5 ∧
  dayPosCount inp a d PosGroup.frontCourt = 5 ∧
  (∀ t ∈ inp.teamsList, dayTeamCount inp a d t ≤ MAX_PLAYERS_PER_TEAM) ∧
  (schedPlayers inp d ≠ [] →
    dayStarterCount inp a d ≤ 5 ∧
    dayStarterPosCount inp a d PosGroup.backCourt ≤ 3 ∧
    dayStarterPosCount inp a d PosGroup.frontCourt ≤ 3) ∧
  (∀ p ∈ inp.players, inp.sched p.id d = true →
    b2n (a.starter p.id d) ≤ b2n (a.roster p.id d) ∧
    b2n (a.captain p.id d) ≤ b2n (a.starter p.id d))

/-- Per-week aggregate constraints (`app.py` lines 916-972), added only
when the week has at least one future day. -/
def weekOk (inp : ModelInput) (a : Assignment) (weekIdx : Nat) (w : Week) : Prop :=
  w.dayIdxs ≠ [] →
    weekTransferSum inp a weekIdx w ≤ transfers_limit_map weekIdx inp.transfersUsedW1 ∧
    (if captain_used_for_week (inp.pastPicks w.gwNum) then weekCaptainSum inp a w = 0
     else weekCaptainSum inp a w = 1)

/-- The full constraint set of one model instance (`prob`), as generated
by `app.py` lines 855-975: an assignment satisfies the model iff it
satisfies every generated constraint.  An accepted (Optimal) strategy is
such an assignment. -/
def constraintsHold (inp : ModelInput) (a : Assignment) : Prop :=
  continuityOk inp a ∧
  forcedOk inp a ∧
  (∀ d ∈ List.range inp.numDays, dayOk inp a d) ∧
  (∀ iw ∈ inp.weeks.enum, weekOk inp a iw.1 iw.2) ∧
  (∀ sol ∈ inp.prevSolutions, cutHolds sol a.roster)

/-- An 11-player candidate pool: ids 0-4 BackCourt, 5-9 FrontCourt,
10 BackCourt, one team each, every cost 10. -/
def exPlayers : List Player :=
  [ { id := 0, cost := 10, pos := PosGroup.backCourt, team := 0 },
    { id := 1, cost := 10, pos := PosGroup.backCourt, team := 1 },
    { id := 2, cost := 10, pos := PosGroup.backCourt, team := 2 },
    { id := 3, cost := 10, pos := PosGroup.backCourt, team := 3 },
    { id := 4, cost := 10, pos := PosGroup.backCourt, team := 4 },
    { id := 5, cost := 10, pos := PosGroup.frontCourt, team := 5 },
    { id := 6, cost := 10, pos := PosGroup.frontCourt, team := 6 },
    { id := 7, cost := 10, pos := PosGroup.frontCourt, team := 7 },
    { id := 8, cost := 10, pos := PosGroup.frontCourt, team := 8 },
    { id := 9, cost := 10, pos := PosGroup.frontCourt, team := 9 },
    { id := 10, cost := 10, pos := PosGroup.backCourt, team := 10 } ]

/-- A one-day model instance: players 0-9 owned, ample budget, one week
(gameweek 5) whose only future day is solver day 0, everyone scheduled. -/
def exInp : ModelInput :=
  { players := exPlayers
    numDays := 1
    owned := [0, 1, 2, 3, 4, 5, 6, 7, 8, 9]
    liq := 100
    bank := 10
    margin := 0
    allStar := false
    playWildcard := false
    forceWcDay1 := true
    simGameDay := 1
    teamsList := [0, 1, 2, 3, 4, 5, 6, 7, 8, 9, 10]
    sched := fun _ _ => true
    weeks := [ { gwNum := 5, dayIdxs := [0] } ]
    transfersUsedW1 := 0
    pastPicks := fun _ => []
    forcedDrop := []
    forcedAdd := []
    forcedKeep := []
    prevSolutions := [] }

/-- A feasible assignment for `exInp` that swaps owned player 0 out for
candidate 10 on day 0 (one declared transfer), starts and captains
player 5. -/
def exAssign : Assignment :=
  { roster := fun pid d => decide (d = 0) && decide (1 ≤ pid) && decide (pid ≤ 10)
    transIn := fun pid d => decide (pid = 10) && decide (d = 0)
    starter := fun pid d => decide (pid = 5) && decide (d = 0)
    captain := fun pid d => decide (pid = 5) && decide (d = 0) }

instance (inp : ModelInput) (a : Assignment) (d : Nat) : Decidable (dayOk inp a d) := by
  unfold dayOk
  infer_instance

instance (inp : ModelInput) (a : Assignment) (i : Nat) (w : Week) :
    Decidable (weekOk inp a i w) := by
  unfold weekOk
  infer_instance

instance (sol : List (Nat × Nat)) (roster : Nat → Nat → Bool) :
    Decidable (cutHolds sol roster) := by
  unfold cutHolds
  infer_instance

instance (inp : ModelInput) (a : Assignment) : Decidable (constraintsHold inp a) := by
  unfold constraintsHold continuityOk forcedOk
  infer_instance


/-- **C2.** Every assignment accepted by the solver (i.e. satisfying every
generated constraint) selects, on each future day, exactly 10 rostered
players, exactly 5 BackCourt and 5 FrontCourt, at most 2 players of any
owning team, and — unless the unlimited-budget override is active — a
total roster cost at most the budget cap `liq + bank - margin`. -/
theorem day_roster_invariants (inp : ModelInput) (a : Assignment)
    (h : constraintsHold inp a)
    (hteams : ∀ p ∈ inp.players, p.team ∈ inp.teamsList)
    (d : Nat) (hd : d < inp.numDays) :
    dayRosterCount inp a d = 10 ∧
    dayPosCount inp a d PosGroup.backCourt = 5 ∧
    dayPosCount inp a d PosGroup.frontCourt = 5 ∧
    (∀ t : Nat, dayTeamCount inp a d t ≤ 2) ∧
    (inp.allStar = false →
      (dayRosterCost inp a d : Int) ≤ (inp.liq : Int) + (inp.bank : Int) - (inp.margin : Int)) := by
  obtain ⟨-, -, hdays, -, -⟩ := h
  obtain ⟨h10, hcost, hbc, hfc, hteam, -, -⟩ := hdays d (List.mem_range.mpr hd)
  refine ⟨h10, hbc, hfc, ?_, ?_⟩
  · intro t
    by_cases ht : t ∈ inp.teamsList
    · exact hteam t ht
    · have hnil : inp.players.filter (fun p => p.team == t) = [] := by
        rw [List.filter_eq_nil_iff]
        intro p hp
        simp only [beq_iff_eq]
        intro hpt
        exact ht (hpt ▸ hteams p hp)
      unfold dayTeamCount
      rw [hnil]
      simp
  · intro hall
    unfold total_budget_safe at hcost
    rw [hall] at hcost
    simpa using hcost

/-- Witness for C2 at the concrete feasible instance `exInp`/`exAssign`. -/
theorem day_roster_invariants_witness :
    dayRosterCount exInp exAssign 0 = 10 ∧
    dayPosCount exInp exAssign 0 PosGroup.backCourt = 5 ∧
    dayTeamCount exInp exAssign 0 3 ≤ 2 ∧
    (dayRosterCost exInp exAssign 0 : Int) ≤
      (exInp.liq : Int) + (exInp.bank : Int) - (exInp.margin : Int) := by
  have h := day_roster_invariants exInp exAssign (by decide) (by decide) 0 (by decide)
  exact ⟨h.1, h.2.1, h.2.2.2.1 3, h.2.2.2.2 rfl⟩

/-- **C4.** For every week of the horizon, the sum of transfer-in
variables over all players and the non-exempt (non-wildcard) future days
of the week is at most the week's allowance, which is
`max(0, 2 - transfers already consumed on settled days of week 1)` for the
first week and `2` for every later week.  (For a week with no future days
the sum is empty and the bound holds trivially.) -/
theorem weekly_transfer_limit (inp : ModelInput) (a : Assignment)
    (h : constraintsHold inp a) :
    ∀ iw ∈ inp.weeks.enum,
      weekTransferSum inp a iw.1 iw.2 ≤ transfers_limit_map iw.1 inp.transfersUsedW1 ∧
      transfers_limit_map iw.1 inp.transfersUsedW1 =
        (if iw.1 = 0 then max 0 ((2 : Int) - (inp.transfersUsedW1 : Int)) else 2) := by
  intro iw hiw
  obtain ⟨-, -, -, hweeks, -⟩ := h
  constructor
  · by_cases hne : iw.2.dayIdxs = []
    · unfold weekTransferSum
      rw [hne]
      simp only [List.filter_nil, List.map_nil, List.sum_nil]
      unfold transfers_limit_map
      split
      · exact le_max_left 0 _
      · norm_num [TRANSFERS_ALLOWED]
    · exact (hweeks iw hiw hne).1
  · unfold transfers_limit_map
    norm_num [TRANSFERS_ALLOWED]

/-- Witness for C4 at the concrete feasible instance: one transfer is
declared in gameweek 5 (week index 0), within the allowance 2. -/
theorem weekly_transfer_limit_witness :
    weekTransferSum exInp exAssign 0 { gwNum := 5, dayIdxs := [0] } ≤
      transfers_limit_map 0 exInp.transfersUsedW1 ∧
    transfers_limit_map 0 exInp.transfersUsedW1 = max 0 ((2 : Int) - (exInp.transfersUsedW1 : Int)) := by
  have h := weekly_transfer_limit exInp exAssign (by decide)
    (0, { gwNum := 5, dayIdxs := [0] }) (by decide)
  exact ⟨h.1, by simpa using h.2⟩

/-- **C5.** For every week with at least one future day, the sum of the
existing captain variables over all players and future days of the week is
exactly 0 when a captain with multiplier > 1 already appears among the
picks of a settled day of that week, and exactly 1 otherwise. -/
theorem weekly_captain_rule (inp : ModelInput) (a : Assignment)
    (h : constraintsHold inp a) :
    ∀ iw ∈ inp.weeks.enum, iw.2.dayIdxs ≠ [] →
      weekCaptainSum inp a iw.2 =
        (if captain_used_for_week (inp.pastPicks iw.2.gwNum) then 0 else 1) := by
  intro iw hiw hne
  obtain ⟨-, -, -, hweeks, -⟩ := h
  have hw := (hweeks iw hiw hne).2
  by_cases hc : captain_used_for_week (inp.pastPicks iw.2.gwNum) = true
  · rw [if_pos hc] at hw ⊢
    exact hw
  · rw [if_neg hc] at hw ⊢
    exact hw

/-- Witness for C5 at the concrete feasible instance: no settled-day
captain exists for gameweek 5, so exactly one captain is placed. -/
theorem weekly_captain_rule_witness :
    weekCaptainSum exInp exAssign { gwNum := 5, dayIdxs := [0] } = 1 := by
  have h := weekly_captain_rule exInp exAssign (by decide)
    (0, { gwNum := 5, dayIdxs := [0] }) (by decide) (by decide)
  simpa using h

/-- **C8, counterexample.** The model places no `roster[p,0] = 1` / `= 0`
equality constraints pinning day 0 to the owned set: `exAssign` satisfies
every generated constraint although the full initial roster of 10 players
is known (`exInp.owned`), owned player 0 is not rostered on day 0, and no
override is involved. -/
theorem day0_not_pinned_counterexample :
    constraintsHold exInp exAssign ∧
    exInp.owned.length = ROSTER_SIZE ∧
    0 ∈ exInp.owned ∧
    exAssign.roster 0 0 = false := by
  exact ⟨by decide, by decide, by decide, by decide⟩

/-- **C8, amended.** The model does not pin the day-0 roster to the owned
set; day-0 continuity is enforced only through the inequality
`transferIn[p,0] ≥ roster[p,0] - ownedIndicator[p]`, so any non-owned
player entering the day-0 roster must be a declared transfer-in (which the
weekly transfer budget then counts). -/
theorem day0_churn_is_declared_transfer (inp : ModelInput) (a : Assignment)
    (h : constraintsHold inp a) (hd : 0 < inp.numDays) :
    ∀ p ∈ inp.players, p.id ∉ inp.owned → a.roster p.id 0 = true →
      a.transIn p.id 0 = true := by
  intro p hp hown hr
  have hc := (h.1 p hp).1 hd
  rw [hr, if_neg hown] at hc
  cases htr : a.transIn p.id 0
  · rw [htr] at hc
    simp [b2i] at hc
  · rfl

/-- Witness for C8 amended: candidate 10 enters the day-0 roster of
`exAssign` and is indeed declared as a transfer-in. -/
theorem day0_churn_is_declared_transfer_witness :
    exAssign.transIn 10 0 = true := by
  have h := day0_churn_is_declared_transfer exInp exAssign (by decide) (by decide)
  exact h { id := 10, cost := 10, pos := PosGroup.backCourt, team := 10 }
    (by decide) (by decide) (by decide)

/-- The outcome of one solver invocation as seen by the loop
(`app.py` lines 978-986): an Optimal status carries the extracted
solution, any other status carries `pulp.LpStatus[prob.status]`. -/
inductive SolveStatus
  | optimal (sol : List (Nat × Nat))
  | failed (statusName : String)
deriving DecidableEq, Repr

/-- The message of the exception raised on a non-optimal solve
(`app.py` line 986). -/
def solverFailMsg (s : String) : String :=
  "Solver failed with status: " ++ s ++ ". Check constraints."

/-- Run status logged on the error path (`app.py` line 1129). -/
def errorStatus : String := "ERROR"

/-- Run status logged on the success path (`app.py` line 1120). -/
def successStatus : String := "SUCCESS"

/-- The strategy-enumeration loop (`app.py` lines 847-993): each iteration
solves the model extended with the cuts of all previously extracted
solutions (`previous_solutions_constraints`, passed to `solve` as `acc`);
an Optimal result appends the extracted solution and continues, any other
status raises, ending the run with the failure message while the already
rendered solutions are kept. -/
def runEnumeration (solve : List (List (Nat × Nat)) → SolveStatus) :
    Nat → List (List (Nat × Nat)) → List (List (Nat × Nat)) × Option String
  | 0, acc => (acc, none)
  | n + 1, acc =>
    match solve acc with
    | SolveStatus.optimal sol => runEnumeration solve n (acc ++ [sol])
    | SolveStatus.failed s => (acc, some (solverFailMsg s))

/-- `loop_count` (`app.py` line 842): the number of strategy ranks the
enumerator attempts. -/
def loop_count : Nat := 1

/-- The whole Strategy Enumerator: `loop_count` iterations starting from
no previous solutions. -/
def strategyEnumerator (solve : List (List (Nat × Nat)) → SolveStatus) :
    List (List (Nat × Nat)) × Option String :=
  runEnumeration solve loop_count []

/-- The status `log_simulation_end` records for an enumeration outcome:
ERROR when a failure message was produced, SUCCESS otherwise
(`app.py` lines 1120, 1129). -/
def log_status (r : List (List (Nat × Nat)) × Option String) : String :=
  match r.2 with
  | some _ => errorStatus
  | none => successStatus

/-- A solver oracle that accepts every model with the same solution. -/
def exSolveAllOptimal : List (List (Nat × Nat)) → SolveStatus :=
  fun _ => SolveStatus.optimal [(1, 0)]

/-- **C3, counterexample.** Even with a solver that returns Optimal for
every model, the enumerator produces exactly one strategy — not up to
three: `loop_count` is 1, so ranks 2 and 3 are never attempted. -/
theorem strategy_count_counterexample :
    (strategyEnumerator exSolveAllOptimal).1.length = 1 ∧
    (strategyEnumerator exSolveAllOptimal).1.length ≠ 3 := by
  exact ⟨rfl, by decide⟩

/-- **C3, amended.** The Strategy Enumerator attempts `loop_count = 1`
rank, so it produces at most one strategy; after each solved rank it
appends the solution's exact (player, day) set as a cut supplied to every
subsequent model, and any roster assignment satisfying such a cut differs
from the recorded solution in at least one (player, day) membership. -/
theorem strategy_enumerator_spec :
    loop_count = 1 ∧
    (∀ solve, (strategyEnumerator solve).1.length ≤ loop_count) ∧
    (∀ (sol : List (Nat × Nat)) (roster : Nat → Nat → Bool),
      cutHolds sol roster → ∃ pd ∈ sol, roster pd.1 pd.2 = false) := by
  refine ⟨rfl, ?_, ?_⟩
  · intro solve
    have key : ∀ (n : Nat) (acc : List (List (Nat × Nat))),
        (runEnumeration solve n acc).1.length ≤ acc.length + n := by
      intro n
      induction n with
      | zero =>
        intro acc
        simp [runEnumeration]
      | succ m ih =>
        intro acc
        rw [runEnumeration]
        cases hsa : solve acc with
        | optimal sol =>
          dsimp only
          have h := ih (acc ++ [sol])
          simp only [List.length_append, List.length_cons, List.length_nil] at h
          omega
        | failed s =>
          dsimp only
          omega
    have h := key loop_count []
    simpa [strategyEnumerator] using h
  · intro sol roster hcut
    by_contra hno
    push_neg at hno
    have hall : ∀ pd ∈ sol, roster pd.1 pd.2 = true := by
      intro pd hpd
      cases h : roster pd.1 pd.2
      · exact absurd h (hno pd hpd)
      · rfl
    have hsum : ∀ l : List (Nat × Nat), (∀ pd ∈ l, roster pd.1 pd.2 = true) →
        (l.map (fun pd => b2i (roster pd.1 pd.2))).sum = (l.length : Int) := by
      intro l
      induction l with
      | nil => simp
      | cons x t ih =>
        intro hl
        have hx := hl x (List.mem_cons_self x t)
        have ht := ih (fun y hy => hl y (List.mem_cons_of_mem x hy))
        rw [List.map_cons, List.sum_cons, ht, hx]
        simp [b2i]
        ring
    have := hsum sol hall
    unfold cutHolds at hcut
    rw [this] at hcut
    omega

/-- A roster assignment with no rostered pair at all. -/
def exRosterFalse : Nat → Nat → Bool := fun _ _ => false

/-- Witness for C3 amended: the cut of the solution `[(1, 0)]` is
satisfied by the empty roster assignment, which indeed differs from the
solution at `(1, 0)`. -/
theorem strategy_enumerator_spec_witness :
    ∃ pd ∈ [((1 : Nat), (0 : Nat))], exRosterFalse pd.1 pd.2 = false :=
  strategy_enumerator_spec.2.2 [(1, 0)] exRosterFalse (by decide)

/-- Helper: a roster summing to `k` players, each of cost at least `cmin`,
costs at least `cmin * k`. -/
theorem mul_count_le_cost_sum (l : List Player) (f : Nat → Bool) (cmin : Nat)
    (h : ∀ p ∈ l, cmin ≤ p.cost) :
    cmin * (l.map (fun p => b2n (f p.id))).sum ≤
      (l.map (fun p => b2n (f p.id) * p.cost)).sum := by
  induction l with
  | nil => simp
  | cons p t ih =>
    have hp := h p (List.mem_cons_self p t)
    have ht := ih (fun q hq => h q (List.mem_cons_of_mem p hq))
    simp only [List.map_cons, List.sum_cons, Nat.mul_add]
    have h1 : cmin * b2n (f p.id) ≤ b2n (f p.id) * p.cost := by
      cases hf : f p.id <;> simp [b2n, hp]
    omega

/-- **C9.** When the budget cap is below the cost of the cheapest possible
10-player roster, no assignment satisfies the model (the rank is
infeasible); and whenever a solve returns a non-Optimal status the
enumeration loop stops at that rank with the failure message of
`app.py` line 986 — a returned value, not a crash — while keeping the
previously produced ranks, and the run is logged with status ERROR. -/
theorem infeasible_budget_reported (inp : ModelInput) (cmin : Nat)
    (hc : ∀ p ∈ inp.players, cmin ≤ p.cost)
    (hd : 0 < inp.numDays)
    (hb : total_budget_safe inp.liq inp.bank inp.margin inp.allStar <
      (ROSTER_SIZE : Int) * (cmin : Int)) :
    (∀ a, ¬ constraintsHold inp a) ∧
    (∀ (solve : List (List (Nat × Nat)) → SolveStatus) (n : Nat)
        (acc : List (List (Nat × Nat))) (s : String),
      solve acc = SolveStatus.failed s →
        runEnumeration solve (n + 1) acc = (acc, some (solverFailMsg s)) ∧
        log_status (runEnumeration solve (n + 1) acc) = errorStatus) := by
  constructor
  · intro a hca
    obtain ⟨-, -, hdays, -, -⟩ := hca
    obtain ⟨h10, hcost, -⟩ := hdays 0 (List.mem_range.mpr hd)
    have hsum : cmin * dayRosterCount inp a 0 ≤ dayRosterCost inp a 0 :=
      mul_count_le_cost_sum inp.players (fun pid => a.roster pid 0) cmin hc
    rw [h10] at hsum
    have hcast : ((cmin * ROSTER_SIZE : Nat) : Int) ≤ (dayRosterCost inp a 0 : Int) := by
      exact_mod_cast hsum
    have hlt := lt_of_le_of_lt (le_trans hcast hcost) hb
    simp only [ROSTER_SIZE] at hlt
    push_cast at hlt
    omega
  · intro solve n acc s hs
    constructor
    · rw [runEnumeration, hs]
    · rw [log_status, runEnumeration, hs]

/-- A pool of ten players of cost 10 each: 5 BackCourt, 5 FrontCourt. -/
def exPlayers9 : List Player :=
  [ { id := 0, cost := 10, pos := PosGroup.backCourt, team := 0 },
    { id := 1, cost := 10, pos := PosGroup.backCourt, team := 1 },
    { id := 2, cost := 10, pos := PosGroup.backCourt, team := 2 },
    { id := 3, cost := 10, pos := PosGroup.backCourt, team := 3 },
    { id := 4, cost := 10, pos := PosGroup.backCourt, team := 4 },
    { id := 5, cost := 10, pos := PosGroup.frontCourt, team := 5 },
    { id := 6, cost := 10, pos := PosGroup.frontCourt, team := 6 },
    { id := 7, cost := 10, pos := PosGroup.frontCourt, team := 7 },
    { id := 8, cost := 10, pos := PosGroup.frontCourt, team := 8 },
    { id := 9, cost := 10, pos := PosGroup.frontCourt, team := 9 } ]

/-- A model instance whose budget cap (5) is below the cost of the
cheapest 10-player roster (100). -/
def exInp9 : ModelInput :=
  { players := exPlayers9
    numDays := 1
    owned := []
    liq := 5
    bank := 0
    margin := 0
    allStar := false
    playWildcard := false
    forceWcDay1 := true
    simGameDay := 1
    teamsList := [0, 1, 2, 3, 4, 5, 6, 7, 8, 9]
    sched := fun _ _ => false
    weeks := [ { gwNum := 1, dayIdxs := [0] } ]
    transfersUsedW1 := 0
    pastPicks := fun _ => []
    forcedDrop := []
    forcedAdd := []
    forcedKeep := []
    prevSolutions := [] }

/-- The status string CBC reports for an infeasible model. -/
def infeasibleName : String := "Infeasible"

/-- A solver oracle that reports Infeasible for every model. -/
def exFailSolve : List (List (Nat × Nat)) → SolveStatus :=
  fun _ => SolveStatus.failed infeasibleName

/-- Witness for C9: the over-tight instance `exInp9` admits no feasible
assignment (shown at `exAssign`), and an Infeasible solve at rank 1 ends
the run with a reported message and an ERROR log status. -/
theorem infeasible_budget_reported_witness :
    ¬ constraintsHold exInp9 exAssign ∧
    runEnumeration exFailSolve 1 [] = ([], some (solverFailMsg infeasibleName)) ∧
    log_status (runEnumeration exFailSolve 1 []) = errorStatus := by
  have h := infeasible_budget_reported exInp9 10 (by decide) (by decide) (by decide)
  exact ⟨h.1 exAssign, (h.2 exFailSolve 0 [] infeasibleName rfl).1,
    (h.2 exFailSolve 0 [] infeasibleName rfl).2⟩
